import Mathlib

/-!
# script-teste-carga.js: an authenticated, read-heavy load scenario

A shallow embedding of the k6 script `src/script-teste-carga.js`.

The script talks to two things it does not define: the backend under test and
the k6 runtime. Both are made explicit here.

* The backend is a function `Request → Response` handed to `setup` and to the
  default function; every theorem quantifies over it.
* The runtime calls (`http.post`, `http.get`, `check`, `sleep`, `group`,
  `Rate.add`, `Trend.add`, `console.log`, `Response.json`) are small definitions
  that append what they do to a trace of `Action`s, so the order and number of
  requests, pauses and metric samples can be read off the trace.

JSON fields are strings or absent (`undefined`), which is the type the data model
gives to the token and to the group id; on such values the loose equality `==`
of line 139 is equality of `Option String`.

Two behaviours of k6 decide what the third group does with a request that got no
response, and both are written into the definitions below: `Response.json`
raises when the body is null, and `check` lets the exception of an assertion out
after recording that assertion as failed. The script's own code has no
`try`/`catch`, so such an exception ends the iteration.
-/

namespace K6Script

/-! ## Data model -/

/-- HTTP methods: the script only uses `http.get` and `http.post`; the others are
listed so that "no mutating request" can be stated. -/
inductive Method
  | GET | POST | PUT | PATCH | DELETE
deriving DecidableEq, Repr

/-- A JavaScript value that is a string or `undefined`. -/
abbrev JsString := Option String

/-- What a template literal prints for `${v}`. -/
def render : JsString → String
  | some s => s
  | none => "undefined"

/-- One HTTP request: `payload` lists the members of the object given to
`JSON.stringify` (empty for a GET), `headers` is `params.headers`. -/
structure Request where
  method : Method
  url : String
  payload : List (String × String)
  headers : List (String × String)
deriving DecidableEq, Repr

/-- What `http.get` / `http.post` hand back.

`failed` is a request that got no response (refused connection, timeout, reset):
k6 reports status 0 and a null body. `received` is a response with its status
code and the string members `json(selector)` can find in its body (none when the
body is not JSON); the script does not ask k6 to discard bodies, so a response
that arrived has one. Both carry `timings.waiting`, here in whole microseconds. -/
inductive Response
  | failed (waiting : Nat)
  | received (status : Nat) (fields : List (String × String)) (waiting : Nat)
deriving DecidableEq, Repr

/-- The `status` property. -/
def Response.status : Response → Nat
  | .failed _ => 0
  | .received s _ _ => s

/-- The `timings.waiting` property (time to first byte). -/
def Response.waiting : Response → Nat
  | .failed w => w
  | .received _ _ w => w

/-- Whether a response was received, that is, whether the body is not null. -/
def Response.isReceived : Response → Bool
  | .failed _ => false
  | .received _ _ _ => true

/-- The method `Response.json(selector)` of k6: it raises when the body is null
("the body is null so we can't transform it to JSON"), and otherwise returns the
selected member, `undefined` when there is none. -/
def Response.json : Response → String → Except String JsString
  | .failed _, _ => .error "the body is null so we can't transform it to JSON"
  | .received _ fields _, selector => .ok (fields.lookup selector)

/-- The member a selector finds, `undefined` also for a null body: used in
statements only, never by the script. -/
def Response.field (r : Response) (selector : String) : JsString :=
  match r.json selector with
  | .ok v => v
  | .error _ => none

/-- The object `setup` returns and every iteration reads (lines 93, 98). -/
structure Fixture where
  authToken : JsString
  testGroupId : JsString
deriving DecidableEq, Repr

/-- Everything the script does that can be seen from outside, in order. -/
inductive Action
  | log (msg : String)
  | request (req : Request)
  | checkSample (name : String) (passed : Bool)
  | rateAdd (metric : String) (value : Bool)
  | trendAdd (metric : String) (value : Nat)
  | sleep (seconds : Nat)
deriving DecidableEq, Repr

/-! ## The runtime: a trace of actions and a result that may be an exception -/

/-- A computation of the script: the actions performed so far and either a value
or the message of the exception that ended it. -/
structure K6 (α : Type) where
  trace : List Action
  result : Except String α

/-- Returning a value performs nothing. -/
def K6.pure {α : Type} (a : α) : K6 α := ⟨[], .ok a⟩

/-- Sequencing: an exception in the first part skips the second. -/
def K6.bind {α β : Type} (m : K6 α) (f : α → K6 β) : K6 β :=
  match m.result with
  | .error e => ⟨m.trace, .error e⟩
  | .ok a => ⟨m.trace ++ (f a).trace, (f a).result⟩

instance : Monad K6 where
  pure := K6.pure
  bind := K6.bind

/-- Does the computation end with an exception -/
def K6.raised {α : Type} (m : K6 α) : Bool :=
  match m.result with
  | .error _ => true
  | .ok _ => false

/-- Perform one action. -/
def emit (a : Action) : K6 Unit := ⟨[a], .ok ()⟩

/-- The statement `throw new Error(msg)`. -/
def raise {α : Type} (msg : String) : K6 α := ⟨[], .error msg⟩

/-- Use the outcome of a call that may raise. -/
def liftExcept {α : Type} : Except String α → K6 α
  | .ok a => ⟨[], .ok a⟩
  | .error e => ⟨[], .error e⟩

/-- The call `console.log(msg)`. -/
def console_log (msg : String) : K6 Unit := emit (.log msg)

/-- The call `http.post(url, payload, params)`: one request, answered by the backend. -/
def http_post (server : Request → Response) (url : String)
    (payload : List (String × String)) (headers : List (String × String)) : K6 Response :=
  ⟨[.request ⟨.POST, url, payload, headers⟩], .ok (server ⟨.POST, url, payload, headers⟩)⟩

/-- The call `http.get(url, params)`: one request, answered by the backend. -/
def http_get (server : Request → Response) (url : String)
    (headers : List (String × String)) : K6 Response :=
  ⟨[.request ⟨.GET, url, [], headers⟩], .ok (server ⟨.GET, url, [], headers⟩)⟩

/-- The call `sleep(seconds)`. -/
def sleep (seconds : Nat) : K6 Unit := emit (.sleep seconds)

/-- The call `group(name, fn)`: runs `fn`; the name only tags the samples. -/
def group {α : Type} (_name : String) (fn : K6 α) : K6 α := fn

/-- The call `check(val, sets)` of k6: every named assertion is evaluated, in
order, none is skipped when an earlier one fails; each adds a sample to the
built-in `checks` metric; the result is true when all passed. An assertion that
raises is recorded as failed and its exception leaves `check`. -/
def check (val : Response) : List (String × (Response → Except String Bool)) → K6 Bool
  | [] => K6.pure true
  | (name, fn) :: rest =>
    match fn val with
    | .error e => K6.bind (emit (.checkSample name false)) (fun _ => raise e)
    | .ok v =>
      K6.bind (emit (.checkSample name v)) (fun _ =>
        K6.bind (check val rest) (fun ok => K6.pure (v && ok)))

/-- The method `Rate.add(value)`. -/
def Rate_add (metric : String) (value : Bool) : K6 Unit := emit (.rateAdd metric value)

/-- The method `Trend.add(value)`. -/
def Trend_add (metric : String) (value : Nat) : K6 Unit := emit (.trendAdd metric value)

/-! ## The script -/

/-- Line 15. -/
def BASE_URL : String := "http://localhost:8080"

/-- Line 19. -/
def mTTFB_Profile : String := "ttfb_get_profile"
/-- Line 20. -/
def mTTFB_ListGroups : String := "ttfb_get_groups"
/-- Line 21. -/
def mTTFB_ViewGroup : String := "ttfb_get_group_details"
/-- Line 22. -/
def mErrorRate : String := "error_rate"

/-- Lines 47-50. -/
def loginPayload : List (String × String) :=
  [("email", "felipe@email.com"), ("password", "FlF03052002")]

/-- Line 51. -/
def loginParams : List (String × String) := [("Content-Type", "application/json")]

/-- Lines 66-71. -/
def setupAuthParams (authToken : JsString) : List (String × String) :=
  [("Authorization", "Bearer " ++ render authToken), ("Content-Type", "application/json")]

/-- Lines 75-80. -/
def createGroupPayload : List (String × String) :=
  [("name", "Grupo de Teste k6"),
   ("description", "Grupo gerado automaticamente pelo k6 para teste de carga"),
   ("start_date", "2025-01-01"),
   ("end_date", "2025-01-10")]

/-- Lines 43-94: the function `setup`. -/
def setup (server : Request → Response) : K6 Fixture := do
  console_log "Executando setup: Autenticando e criando dados de teste..."
  let loginRes ← http_post server (BASE_URL ++ "/auth/login") loginPayload loginParams
  if loginRes.status ≠ 200 then
    raise "Setup falhou: Não foi possível fazer login. Verifique as credenciais."
  let authToken ← liftExcept (loginRes.json "token")
  console_log "Setup: Login realizado, token obtido."
  let authParams := setupAuthParams authToken
  let createGroupRes ← http_post server (BASE_URL ++ "/groups") createGroupPayload authParams
  if createGroupRes.status ≠ 201 then
    raise "Setup falhou: Não foi possível criar o grupo de teste."
  let testGroupId ← liftExcept (createGroupRes.json "id")
  console_log ("Setup: Grupo de teste (ID: " ++ render testGroupId ++ ") criado.")
  return ⟨authToken, testGroupId⟩

/-- Lines 100-104. -/
def authParams (data : Fixture) : List (String × String) :=
  [("Authorization", "Bearer " ++ render data.authToken)]

/-- Lines 107-115: the first group. -/
def scenarioProfile (server : Request → Response) (data : Fixture) : K6 Unit :=
  group "Cenário: GET /profile" do
    let res ← http_get server (BASE_URL ++ "/profile") (authParams data)
    let checkRes ← check res
      [("GET /profile status 200", fun r => .ok (decide (r.status = 200)))]
    Rate_add mErrorRate (!checkRes)
    Trend_add mTTFB_Profile res.waiting

/-- Lines 120-128: the second group. -/
def scenarioListGroups (server : Request → Response) (data : Fixture) : K6 Unit :=
  group "Cenário: GET /groups" do
    let res ← http_get server (BASE_URL ++ "/groups") (authParams data)
    let checkRes ← check res
      [("GET /groups status 200", fun r => .ok (decide (r.status = 200)))]
    Rate_add mErrorRate (!checkRes)
    Trend_add mTTFB_ListGroups res.waiting

/-- Lines 133-143: the third group. -/
def scenarioViewGroup (server : Request → Response) (data : Fixture) : K6 Unit :=
  group "Cenário: GET /groups/{id}" do
    let res ← http_get server (BASE_URL ++ "/groups/" ++ render data.testGroupId) (authParams data)
    let checkRes ← check res
      [("GET /groups/{id} status 200", fun r => .ok (decide (r.status = 200))),
       ("GET /groups/{id} ID correto",
          fun r => (r.json "id").map (fun v => decide (v = data.testGroupId)))]
    Rate_add mErrorRate (!checkRes)
    Trend_add mTTFB_ViewGroup res.waiting

/-- Lines 98-146: the default function, one iteration of a virtual user. -/
def default (server : Request → Response) (data : Fixture) : K6 Unit := do
  scenarioProfile server data
  sleep 1
  scenarioListGroups server data
  sleep 1
  scenarioViewGroup server data
  sleep 1

/-! ## Reading a trace -/

/-- The requests issued, in order. -/
def requestsOf (trace : List Action) : List Request :=
  trace.filterMap fun a => match a with
    | .request r => some r
    | _ => none

/-- The requests and pauses, in order, everything else left out. -/
def requestsAndPauses (trace : List Action) : List Action :=
  trace.filter fun a => match a with
    | .request _ => true
    | .sleep _ => true
    | _ => false

/-- The samples added to the rate metric of that name, in order. -/
def rateSamples (metric : String) (trace : List Action) : List Bool :=
  trace.filterMap fun a => match a with
    | .rateAdd m v => if m = metric then some v else none
    | _ => none

/-- The samples added to the trend metric of that name, in order. -/
def trendSamples (metric : String) (trace : List Action) : List Nat :=
  trace.filterMap fun a => match a with
    | .trendAdd m v => if m = metric then some v else none
    | _ => none

/-- The outcome of every assertion evaluated by `check`, in order: true is a pass. -/
def checkSamples (trace : List Action) : List Bool :=
  trace.filterMap fun a => match a with
    | .checkSample _ passed => some passed
    | _ => none

/-- The value of a rate metric: the samples that are true over all samples
(0 when there is none). -/
def rate (samples : List Bool) : ℚ :=
  (samples.count true : ℚ) / (samples.length : ℚ)

/-- The metric `error_rate` after a trace. -/
def errorRate (trace : List Action) : ℚ := rate (rateSamples mErrorRate trace)

/-- Failed assertions over evaluated assertions. -/
def failedAssertionRatio (trace : List Action) : ℚ :=
  ((checkSamples trace).count false : ℚ) / ((checkSamples trace).length : ℚ)

/-- The loop of one virtual user: the default function is called once per
iteration with the fixture of `setup`, each time against the backend as it
answers then; an iteration that raises ends alone, the next one starts. -/
def runIterations (data : Fixture) : List (Request → Response) → List Action
  | [] => []
  | server :: rest => (default server data).trace ++ runIterations data rest

/-! ## The requests of the script, named -/

/-- Line 54. -/
def loginRequest : Request :=
  ⟨.POST, BASE_URL ++ "/auth/login", loginPayload, loginParams⟩

/-- Line 82. -/
def createGroupRequest (authToken : JsString) : Request :=
  ⟨.POST, BASE_URL ++ "/groups", createGroupPayload, setupAuthParams authToken⟩

/-- Line 108: request A. -/
def profileRequest (data : Fixture) : Request :=
  ⟨.GET, BASE_URL ++ "/profile", [], authParams data⟩

/-- Line 121: request B. -/
def listGroupsRequest (data : Fixture) : Request :=
  ⟨.GET, BASE_URL ++ "/groups", [], authParams data⟩

/-- Line 135: request C. -/
def viewGroupRequest (data : Fixture) : Request :=
  ⟨.GET, BASE_URL ++ "/groups/" ++ render data.testGroupId, [], authParams data⟩

/-! ## Backends used as concrete inputs -/

/-- A backend where everything works: the login gives the token `abc123`, the
group creation gives the id `g-1`, every GET gives 200 and the body of the group
carries the id `g-1`. -/
def healthyBackend : Request → Response := fun req =>
  if req.url = BASE_URL ++ "/auth/login" then .received 200 [("token", "abc123")] 12
  else if req.method = .POST then .received 201 [("id", "g-1")] 15
  else .received 200 [("id", "g-1")] 9

/-- A backend that refuses the login with 401. -/
def refusingBackend : Request → Response := fun _ => .received 401 [] 4

/-- The fixture `setup` builds against `healthyBackend`. -/
def sampleFixture : Fixture := ⟨some "abc123", some "g-1"⟩

/-- A backend whose group-detail endpoint gives no response (a timeout, say)
while the other two answer 200. -/
def silentDetailBackend : Request → Response := fun req =>
  if req.url = BASE_URL ++ "/groups/g-1" then .failed 0 else .received 200 [] 9

/-- A backend that is down: no request gets a response. -/
def downBackend : Request → Response := fun _ => .failed 0

/-- A backend that answers every GET with 200 and a body whose id is `different-id`. -/
def wrongIdBackend : Request → Response := fun _ => .received 200 [("id", "different-id")] 7

/-- A backend that answers every GET with 200 and the id `g-1`, with a time to
first byte reported as 0. -/
def instantBackend : Request → Response := fun _ => .received 200 [("id", "g-1")] 0

/-- Section 4.2 of the spec, steps 1, 3 and 5: for one iteration, whether step A,
step B and step C failed. A and B fail when the status is not 200, C when the
status is not 200 or the returned id is not the one of the fixture. -/
def stepFailures (data : Fixture) (server : Request → Response) : List Bool :=
  [decide ((server (profileRequest data)).status ≠ 200),
   decide ((server (listGroupsRequest data)).status ≠ 200),
   decide ((server (viewGroupRequest data)).status ≠ 200 ∨
     (server (viewGroupRequest data)).field "id" ≠ data.testGroupId)]

/-- The number of failed steps over a sequence of iterations. -/
def failedSteps (data : Fixture) : List (Request → Response) → Nat
  | [] => 0
  | server :: rest => (stepFailures data server).count true + failedSteps data rest

/-- The actions that add a sample to a trend metric, whatever its name. -/
def trendActions (trace : List Action) : List Action :=
  trace.filter fun a => match a with
    | .trendAdd _ _ => true
    | _ => false

/-! ## Equations for the runtime and for each part of the script -/

theorem bind_ok {α β : Type} (t : List Action) (a : α) (f : α → K6 β) :
    K6.bind ⟨t, .ok a⟩ f = ⟨t ++ (f a).trace, (f a).result⟩ := rfl

theorem bind_error {α β : Type} (t : List Action) (e : String) (f : α → K6 β) :
    K6.bind (⟨t, .error e⟩ : K6 α) f = ⟨t, .error e⟩ := rfl

/-- A response whose status is not 0 was received. -/
theorem received_of_status {r : Response} {n : Nat} (h : r.status = n) (hn : n ≠ 0) :
    ∃ fields w, r = .received n fields w := by
  cases r with
  | failed w => exact absurd h.symm hn
  | received s fields w => exact ⟨fields, w, by simp [Response.status] at h; rw [h]⟩

theorem status_received (s : Nat) (fields : List (String × String)) (w : Nat) :
    (Response.received s fields w).status = s := rfl

theorem json_received (s : Nat) (fields : List (String × String)) (w : Nat) (sel : String) :
    (Response.received s fields w).json sel = .ok (fields.lookup sel) := rfl

/-- The field of a received response is what `json` finds. -/
theorem field_received (s : Nat) (fields : List (String × String)) (w : Nat) (sel : String) :
    (Response.received s fields w).field sel = fields.lookup sel := rfl

/-- Setup when the login is refused: one request, then the exception of line 58. -/
theorem setup_login_refused (server : Request → Response)
    (h : (server loginRequest).status ≠ 200) :
    setup server =
      ⟨[.log "Executando setup: Autenticando e criando dados de teste...",
        .request loginRequest],
       .error "Setup falhou: Não foi possível fazer login. Verifique as credenciais."⟩ := by
  have h2 : (server ⟨.POST, BASE_URL ++ "/auth/login", loginPayload, loginParams⟩).status ≠ 200 := h
  simp [setup, bind, console_log, emit, http_post, bind_ok, bind_error, raise, h2, loginRequest]

/-- Setup when the login passes and the group is not created: two requests, then
the exception of line 85. -/
theorem setup_create_refused (server : Request → Response)
    (fields : List (String × String)) (w : Nat)
    (hL : server loginRequest = .received 200 fields w)
    (hG : (server (createGroupRequest (fields.lookup "token"))).status ≠ 201) :
    setup server =
      ⟨[.log "Executando setup: Autenticando e criando dados de teste...",
        .request loginRequest,
        .log "Setup: Login realizado, token obtido.",
        .request (createGroupRequest (fields.lookup "token"))],
       .error "Setup falhou: Não foi possível criar o grupo de teste."⟩ := by
  have hL2 : server ⟨.POST, BASE_URL ++ "/auth/login", loginPayload, loginParams⟩
      = .received 200 fields w := hL
  have hG2 : (server ⟨.POST, BASE_URL ++ "/groups", createGroupPayload,
      setupAuthParams (fields.lookup "token")⟩).status ≠ 201 := hG
  simp [setup, bind, console_log, emit, http_post, bind_ok, bind_error, raise, hL2, hG2,
    loginRequest, createGroupRequest, status_received, json_received, liftExcept, K6.pure,
    pure]

/-- Setup when both requests pass: the fixture of line 93. -/
theorem setup_passes (server : Request → Response)
    (fields : List (String × String)) (w : Nat)
    (groupFields : List (String × String)) (w2 : Nat)
    (hL : server loginRequest = .received 200 fields w)
    (hG : server (createGroupRequest (fields.lookup "token")) = .received 201 groupFields w2) :
    setup server =
      ⟨[.log "Executando setup: Autenticando e criando dados de teste...",
        .request loginRequest,
        .log "Setup: Login realizado, token obtido.",
        .request (createGroupRequest (fields.lookup "token")),
        .log ("Setup: Grupo de teste (ID: " ++ render (groupFields.lookup "id") ++ ") criado.")],
       .ok ⟨fields.lookup "token", groupFields.lookup "id"⟩⟩ := by
  have hL2 : server ⟨.POST, BASE_URL ++ "/auth/login", loginPayload, loginParams⟩
      = .received 200 fields w := hL
  have hG2 : server ⟨.POST, BASE_URL ++ "/groups", createGroupPayload,
      setupAuthParams (fields.lookup "token")⟩ = .received 201 groupFields w2 := hG
  simp [setup, bind, console_log, emit, http_post, bind_ok, bind_error, raise, hL2, hG2,
    loginRequest, createGroupRequest, status_received, json_received, liftExcept, K6.pure,
    pure]

/-- The first group, whatever the response. -/
theorem scenarioProfile_eq (server : Request → Response) (data : Fixture) :
    scenarioProfile server data =
      ⟨[.request (profileRequest data),
        .checkSample "GET /profile status 200"
          (decide ((server (profileRequest data)).status = 200)),
        .rateAdd mErrorRate (!decide ((server (profileRequest data)).status = 200)),
        .trendAdd mTTFB_Profile (server (profileRequest data)).waiting], .ok ()⟩ := by
  simp [scenarioProfile, group, bind, http_get, check, emit, Rate_add, Trend_add, bind_ok,
    K6.pure, profileRequest]

/-- The second group, whatever the response. -/
theorem scenarioListGroups_eq (server : Request → Response) (data : Fixture) :
    scenarioListGroups server data =
      ⟨[.request (listGroupsRequest data),
        .checkSample "GET /groups status 200"
          (decide ((server (listGroupsRequest data)).status = 200)),
        .rateAdd mErrorRate (!decide ((server (listGroupsRequest data)).status = 200)),
        .trendAdd mTTFB_ListGroups (server (listGroupsRequest data)).waiting], .ok ()⟩ := by
  simp [scenarioListGroups, group, bind, http_get, check, emit, Rate_add, Trend_add, bind_ok,
    K6.pure, listGroupsRequest]

/-- The third group when a response came back. -/
theorem scenarioViewGroup_received (server : Request → Response) (data : Fixture)
    (s : Nat) (fields : List (String × String)) (w : Nat)
    (hC : server (viewGroupRequest data) = .received s fields w) :
    scenarioViewGroup server data =
      ⟨[.request (viewGroupRequest data),
        .checkSample "GET /groups/{id} status 200" (decide (s = 200)),
        .checkSample "GET /groups/{id} ID correto"
          (decide (fields.lookup "id" = data.testGroupId)),
        .rateAdd mErrorRate
          (!(decide (s = 200) && decide (fields.lookup "id" = data.testGroupId))),
        .trendAdd mTTFB_ViewGroup w], .ok ()⟩ := by
  have hC2 : server ⟨.GET, BASE_URL ++ "/groups/" ++ render data.testGroupId, [],
      authParams data⟩ = .received s fields w := hC
  simp [scenarioViewGroup, group, bind, http_get, check, emit, Rate_add, Trend_add, bind_ok,
    K6.pure, viewGroupRequest, hC2, Response.json, Except.map, Response.status,
    Response.waiting]

/-- The third group when no response came back: the second assertion raises, and
neither metric gets a sample. -/
theorem scenarioViewGroup_failed (server : Request → Response) (data : Fixture) (w : Nat)
    (hC : server (viewGroupRequest data) = .failed w) :
    scenarioViewGroup server data =
      ⟨[.request (viewGroupRequest data),
        .checkSample "GET /groups/{id} status 200" false,
        .checkSample "GET /groups/{id} ID correto" false],
       .error "the body is null so we can't transform it to JSON"⟩ := by
  have hC2 : server ⟨.GET, BASE_URL ++ "/groups/" ++ render data.testGroupId, [],
      authParams data⟩ = .failed w := hC
  simp [scenarioViewGroup, group, bind, http_get, check, emit, Rate_add, Trend_add, bind_ok,
    bind_error, raise, K6.pure, viewGroupRequest, hC2, Response.json, Except.map,
    Response.status, Response.waiting]

/-- One iteration when request C got a response: sixteen actions, no exception. -/
theorem default_received (server : Request → Response) (data : Fixture)
    (s : Nat) (fields : List (String × String)) (w : Nat)
    (hC : server (viewGroupRequest data) = .received s fields w) :
    default server data =
      ⟨[.request (profileRequest data),
        .checkSample "GET /profile status 200"
          (decide ((server (profileRequest data)).status = 200)),
        .rateAdd mErrorRate (!decide ((server (profileRequest data)).status = 200)),
        .trendAdd mTTFB_Profile (server (profileRequest data)).waiting,
        .sleep 1,
        .request (listGroupsRequest data),
        .checkSample "GET /groups status 200"
          (decide ((server (listGroupsRequest data)).status = 200)),
        .rateAdd mErrorRate (!decide ((server (listGroupsRequest data)).status = 200)),
        .trendAdd mTTFB_ListGroups (server (listGroupsRequest data)).waiting,
        .sleep 1,
        .request (viewGroupRequest data),
        .checkSample "GET /groups/{id} status 200" (decide (s = 200)),
        .checkSample "GET /groups/{id} ID correto"
          (decide (fields.lookup "id" = data.testGroupId)),
        .rateAdd mErrorRate
          (!(decide (s = 200) && decide (fields.lookup "id" = data.testGroupId))),
        .trendAdd mTTFB_ViewGroup w,
        .sleep 1], .ok ()⟩ := by
  simp only [default, bind, scenarioProfile_eq, scenarioListGroups_eq,
    scenarioViewGroup_received server data s fields w hC, sleep, emit, bind_ok]
  rfl

/-- One iteration when request C got no response: it ends in the third group,
before the last pause. -/
theorem default_failed (server : Request → Response) (data : Fixture) (w : Nat)
    (hC : server (viewGroupRequest data) = .failed w) :
    default server data =
      ⟨[.request (profileRequest data),
        .checkSample "GET /profile status 200"
          (decide ((server (profileRequest data)).status = 200)),
        .rateAdd mErrorRate (!decide ((server (profileRequest data)).status = 200)),
        .trendAdd mTTFB_Profile (server (profileRequest data)).waiting,
        .sleep 1,
        .request (listGroupsRequest data),
        .checkSample "GET /groups status 200"
          (decide ((server (listGroupsRequest data)).status = 200)),
        .rateAdd mErrorRate (!decide ((server (listGroupsRequest data)).status = 200)),
        .trendAdd mTTFB_ListGroups (server (listGroupsRequest data)).waiting,
        .sleep 1,
        .request (viewGroupRequest data),
        .checkSample "GET /groups/{id} status 200" false,
        .checkSample "GET /groups/{id} ID correto" false],
       .error "the body is null so we can't transform it to JSON"⟩ := by
  simp only [default, bind, scenarioProfile_eq, scenarioListGroups_eq,
    scenarioViewGroup_failed server data w hC, sleep, emit, bind_ok, bind_error]
  rfl

/-! ## Setup -/

/-- C1: `setup` raises exactly when the login response is not a 200, or it is and
the group-creation response is not a 201; for every other pair of responses it
returns a fixture. -/
theorem setup_raises_iff (server : Request → Response) :
    ((setup server).raised = true ↔
      ((server loginRequest).status ≠ 200 ∨
        ((server loginRequest).status = 200 ∧
          (server (createGroupRequest ((server loginRequest).field "token"))).status ≠ 201))) ∧
    (¬ ((server loginRequest).status ≠ 200 ∨
        ((server loginRequest).status = 200 ∧
          (server (createGroupRequest ((server loginRequest).field "token"))).status ≠ 201)) →
      ∃ fixture, (setup server).result = .ok fixture) := by
  by_cases hL : (server loginRequest).status = 200
  · obtain ⟨fields, w, hLr⟩ := received_of_status hL (by decide)
    rw [hLr, field_received, status_received]
    by_cases hG : (server (createGroupRequest (fields.lookup "token"))).status = 201
    · obtain ⟨groupFields, w2, hGr⟩ := received_of_status hG (by decide)
      rw [setup_passes server fields w groupFields w2 hLr hGr]
      simp [K6.raised, hG]
    · rw [setup_create_refused server fields w hLr hG]
      simp [K6.raised, hG]
  · rw [setup_login_refused server hL]
    simp [K6.raised, hL]

/-- C2: when the login response is not a 200, `setup` issues the login request and
no other request, and ends with an exception: it returns no fixture. -/
theorem setup_stops_after_refused_login (server : Request → Response)
    (h : (server loginRequest).status ≠ 200) :
    requestsOf (setup server).trace = [loginRequest] ∧
    loginRequest.method = .POST ∧
    loginRequest.url = BASE_URL ++ "/auth/login" ∧
    (setup server).raised = true ∧
    ∀ fixture, (setup server).result ≠ .ok fixture := by
  rw [setup_login_refused server h]
  simp [requestsOf, K6.raised, loginRequest]

/-- C2 at a backend that answers the login with 401. -/
theorem setup_stops_after_refused_login_witness :
    (refusingBackend loginRequest).status ≠ 200 ∧
    requestsOf (setup refusingBackend).trace = [loginRequest] ∧
    (setup refusingBackend).raised = true :=
  ⟨by decide,
   (setup_stops_after_refused_login refusingBackend (by decide)).1,
   (setup_stops_after_refused_login refusingBackend (by decide)).2.2.2.1⟩

/-- C3: when the login response is a 200 and the group-creation response a 201,
`setup` issues two requests, the login and then the POST of the group with the
header `Authorization: Bearer <token>`, the token being the `token` member of the
login response; it returns the fixture made of that token and of the `id` member
of the group-creation response. -/
theorem setup_returns_fixture (server : Request → Response)
    (hL : (server loginRequest).status = 200)
    (hG : (server (createGroupRequest ((server loginRequest).field "token"))).status = 201) :
    requestsOf (setup server).trace =
      [loginRequest, createGroupRequest ((server loginRequest).field "token")] ∧
    loginRequest.method = .POST ∧
    loginRequest.url = BASE_URL ++ "/auth/login" ∧
    (createGroupRequest ((server loginRequest).field "token")).method = .POST ∧
    (createGroupRequest ((server loginRequest).field "token")).url = BASE_URL ++ "/groups" ∧
    (createGroupRequest ((server loginRequest).field "token")).headers.lookup "Authorization" =
      some ("Bearer " ++ render ((server loginRequest).field "token")) ∧
    (setup server).result =
      .ok ⟨(server loginRequest).field "token",
           (server (createGroupRequest ((server loginRequest).field "token"))).field "id"⟩ ∧
    (requestsOf (setup server).trace).map (fun r => r.method) = [.POST, .POST] ∧
    (requestsOf (setup server).trace).map (fun r => r.url) =
      ["http://localhost:8080/auth/login", "http://localhost:8080/groups"] ∧
    (∀ token : String, (server loginRequest).field "token" = some token →
      (requestsOf (setup server).trace).map (fun r => r.headers.lookup "Authorization") =
        [none, some ("Bearer " ++ token)] ∧
      ∃ fixture, (setup server).result = .ok fixture ∧ fixture.authToken = some token) ∧
    ((server loginRequest).field "token" = none →
      (requestsOf (setup server).trace).map (fun r => r.headers.lookup "Authorization") =
        [none, some "Bearer undefined"]) ∧
    (∀ id : String,
      (server (createGroupRequest ((server loginRequest).field "token"))).field "id" = some id →
      ∃ fixture, (setup server).result = .ok fixture ∧ fixture.testGroupId = some id) := by
  obtain ⟨fields, w, hLr⟩ := received_of_status hL (by decide)
  rw [hLr, field_received] at hG ⊢
  obtain ⟨groupFields, w2, hGr⟩ := received_of_status hG (by decide)
  rw [setup_passes server fields w groupFields w2 hLr hGr, hGr, field_received]
  have hUrl1 : BASE_URL ++ "/auth/login" = "http://localhost:8080/auth/login" := by decide
  have hUrl2 : BASE_URL ++ "/groups" = "http://localhost:8080/groups" := by decide
  refine ⟨?_, ?_, ?_, ?_, ?_, ?_, ?_, ?_, ?_, ?_, ?_, ?_⟩
  · simp [requestsOf]
  · rfl
  · rfl
  · rfl
  · rfl
  · simp [createGroupRequest, setupAuthParams, List.lookup]
  · rfl
  · simp [requestsOf, loginRequest, createGroupRequest]
  · simp [requestsOf, loginRequest, createGroupRequest, hUrl1, hUrl2]
  · intro token hTok
    rw [hTok]
    refine ⟨?_, _, rfl, rfl⟩
    simp [requestsOf, loginRequest, createGroupRequest, setupAuthParams, loginParams,
      List.lookup, render]
  · intro hTok
    rw [hTok]
    have hNone : "Bearer " ++ render none = "Bearer undefined" := by decide
    simp [requestsOf, loginRequest, createGroupRequest, setupAuthParams, loginParams,
      List.lookup, hNone]
  · intro id hId
    exact ⟨_, rfl, hId⟩

/-- C3 at `healthyBackend`: token `abc123`, group id `g-1`. -/
theorem setup_returns_fixture_witness :
    (healthyBackend loginRequest).status = 200 ∧
    (healthyBackend (createGroupRequest ((healthyBackend loginRequest).field "token"))).status
      = 201 ∧
    (setup healthyBackend).result = .ok sampleFixture ∧
    requestsOf (setup healthyBackend).trace =
      [loginRequest, createGroupRequest (some "abc123")] ∧
    (requestsOf (setup healthyBackend).trace).map (fun r => r.url) =
      ["http://localhost:8080/auth/login", "http://localhost:8080/groups"] ∧
    (requestsOf (setup healthyBackend).trace).map
        (fun r => r.headers.lookup "Authorization") =
      [none, some "Bearer abc123"] ∧
    (setup healthyBackend).result = .ok ⟨some "abc123", some "g-1"⟩ :=
  ⟨by decide, by decide,
   (setup_returns_fixture healthyBackend (by decide) (by decide)).2.2.2.2.2.2.1,
   (setup_returns_fixture healthyBackend (by decide) (by decide)).1,
   (setup_returns_fixture healthyBackend (by decide) (by decide)).2.2.2.2.2.2.2.2.1,
   ((setup_returns_fixture healthyBackend (by decide) (by decide)).2.2.2.2.2.2.2.2.2.1
      "abc123" (by decide)).1,
   (setup_returns_fixture healthyBackend (by decide) (by decide)).2.2.2.2.2.2.1⟩

/-! ## One iteration -/

/-- The requests of one iteration, whatever the responses. -/
theorem requestsOf_default (server : Request → Response) (data : Fixture) :
    requestsOf (default server data).trace =
      [profileRequest data, listGroupsRequest data, viewGroupRequest data] := by
  cases hC : server (viewGroupRequest data) with
  | failed w => rw [default_failed server data w hC]; simp [requestsOf]
  | received s fields w => rw [default_received server data s fields w hC]; simp [requestsOf]

/-- Requests and pauses of one iteration in which request C got a response. -/
theorem requestsAndPauses_default_received (server : Request → Response) (data : Fixture)
    (hC : (server (viewGroupRequest data)).isReceived = true) :
    requestsAndPauses (default server data).trace =
      [.request (profileRequest data), .sleep 1, .request (listGroupsRequest data), .sleep 1,
       .request (viewGroupRequest data), .sleep 1] ∧
    (default server data).result = .ok () := by
  cases hR : server (viewGroupRequest data) with
  | failed w => rw [hR] at hC; simp [Response.isReceived] at hC
  | received s fields w =>
    rw [default_received server data s fields w hR]; simp [requestsAndPauses]

/-- The samples one iteration adds to `error_rate` when request C got a response. -/
theorem rateSamples_default_received (server : Request → Response) (data : Fixture)
    (hC : (server (viewGroupRequest data)).isReceived = true) :
    rateSamples mErrorRate (default server data).trace = stepFailures data server := by
  cases hR : server (viewGroupRequest data) with
  | failed w => rw [hR] at hC; simp [Response.isReceived] at hC
  | received s fields w =>
    rw [default_received server data s fields w hR]
    simp only [stepFailures, hR, field_received, status_received]
    by_cases h1 : s = 200 <;> by_cases h2 : fields.lookup "id" = data.testGroupId <;>
      simp [rateSamples, List.filterMap_cons, h1, h2]

/-- The samples one iteration adds to the three latency metrics when request C got
a response. -/
theorem trendSamples_default_received (server : Request → Response) (data : Fixture)
    (hC : (server (viewGroupRequest data)).isReceived = true) :
    trendSamples mTTFB_Profile (default server data).trace =
      [(server (profileRequest data)).waiting] ∧
    trendSamples mTTFB_ListGroups (default server data).trace =
      [(server (listGroupsRequest data)).waiting] ∧
    trendSamples mTTFB_ViewGroup (default server data).trace =
      [(server (viewGroupRequest data)).waiting] ∧
    trendActions (default server data).trace =
      [.trendAdd mTTFB_Profile (server (profileRequest data)).waiting,
       .trendAdd mTTFB_ListGroups (server (listGroupsRequest data)).waiting,
       .trendAdd mTTFB_ViewGroup (server (viewGroupRequest data)).waiting] := by
  cases hR : server (viewGroupRequest data) with
  | failed w => rw [hR] at hC; simp [Response.isReceived] at hC
  | received s fields w =>
    rw [default_received server data s fields w hR]
    simp [trendSamples, trendActions, List.filterMap_cons, mTTFB_Profile, mTTFB_ListGroups,
      mTTFB_ViewGroup, Response.waiting]

/-! ## Several iterations -/

theorem rateSamples_append (metric : String) (t₁ t₂ : List Action) :
    rateSamples metric (t₁ ++ t₂) = rateSamples metric t₁ ++ rateSamples metric t₂ := by
  simp [rateSamples, List.filterMap_append]

theorem trendSamples_append (metric : String) (t₁ t₂ : List Action) :
    trendSamples metric (t₁ ++ t₂) = trendSamples metric t₁ ++ trendSamples metric t₂ := by
  simp [trendSamples, List.filterMap_append]

theorem requestsOf_append (t₁ t₂ : List Action) :
    requestsOf (t₁ ++ t₂) = requestsOf t₁ ++ requestsOf t₂ := by
  simp [requestsOf, List.filterMap_append]

/-- Over iterations whose request C got a response, `error_rate` receives three
samples per iteration, and as many true ones as there are failed steps. -/
theorem rateSamples_runIterations (data : Fixture) (servers : List (Request → Response))
    (h : ∀ server ∈ servers, (server (viewGroupRequest data)).isReceived = true) :
    (rateSamples mErrorRate (runIterations data servers)).length = 3 * servers.length ∧
    (rateSamples mErrorRate (runIterations data servers)).count true =
      failedSteps data servers := by
  induction servers with
  | nil => simp [runIterations, rateSamples, failedSteps]
  | cons server rest ih =>
    have hHead := h server (List.mem_cons_self _ _)
    have hRest := ih (fun sv hsv => h sv (List.mem_cons_of_mem _ hsv))
    rw [runIterations, rateSamples_append, rateSamples_default_received server data hHead,
      List.length_append, List.count_append, hRest.1, hRest.2, failedSteps]
    constructor
    · simp [stepFailures]; omega
    · rfl

/-- Over iterations whose request C got a response, each latency metric receives
the waiting time of its own request, once per iteration. -/
theorem trendSamples_runIterations (data : Fixture) (servers : List (Request → Response))
    (h : ∀ server ∈ servers, (server (viewGroupRequest data)).isReceived = true) :
    trendSamples mTTFB_Profile (runIterations data servers) =
      servers.map (fun server => (server (profileRequest data)).waiting) ∧
    trendSamples mTTFB_ListGroups (runIterations data servers) =
      servers.map (fun server => (server (listGroupsRequest data)).waiting) ∧
    trendSamples mTTFB_ViewGroup (runIterations data servers) =
      servers.map (fun server => (server (viewGroupRequest data)).waiting) := by
  induction servers with
  | nil => simp [runIterations, trendSamples]
  | cons server rest ih =>
    have hHead := trendSamples_default_received server data (h server (List.mem_cons_self _ _))
    have hRest := ih (fun sv hsv => h sv (List.mem_cons_of_mem _ hsv))
    simp only [runIterations, trendSamples_append, hHead.1, hHead.2.1, hHead.2.2.1, hRest.1,
      hRest.2.1, hRest.2.2, List.map_cons, List.singleton_append, and_self]

/-- Every request of a run is one of the three requests built from the fixture. -/
theorem requestsOf_runIterations (data : Fixture) (servers : List (Request → Response))
    (r : Request) (hr : r ∈ requestsOf (runIterations data servers)) :
    r = profileRequest data ∨ r = listGroupsRequest data ∨ r = viewGroupRequest data := by
  induction servers with
  | nil => simp [runIterations, requestsOf] at hr
  | cons server rest ih =>
    rw [runIterations, requestsOf_append, requestsOf_default, List.mem_append] at hr
    rcases hr with hr | hr
    · simpa using hr
    · exact ih hr

/-- The three requests of an iteration are different requests, so a backend can
answer them with any three responses. -/
theorem server_for_triple (data : Fixture) (a b c : Response) :
    ∃ server : Request → Response,
      server (profileRequest data) = a ∧ server (listGroupsRequest data) = b ∧
      server (viewGroupRequest data) = c := by
  refine ⟨fun req => if req.url = BASE_URL ++ "/profile" then a
    else if req.url = BASE_URL ++ "/groups" then b else c, ?_, ?_, ?_⟩
  · simp [profileRequest]
  · have h : BASE_URL ++ "/groups" ≠ BASE_URL ++ "/profile" := by decide
    simp [listGroupsRequest, h]
  · have h1 : BASE_URL ++ "/groups/" ++ render data.testGroupId ≠ BASE_URL ++ "/profile" := by
      intro h
      have h' := congrArg String.data h
      simp [BASE_URL, String.data_append] at h'
    have h2 : BASE_URL ++ "/groups/" ++ render data.testGroupId ≠ BASE_URL ++ "/groups" := by
      intro h
      have h' := congrArg String.length h
      have e1 : (BASE_URL ++ "/groups/").length = 29 := by decide
      have e2 : (BASE_URL ++ "/groups").length = 28 := by decide
      rw [String.length_append, e1, e2] at h'
      omega
    simp [viewGroupRequest, h1, h2]

/-! ## Iterations: order of the actions, metrics, requests -/

/-- C4: the claim says every iteration ends with a third pause. When request C gets
no response (here: the other two answer 200), the iteration issues A, pauses,
issues B, pauses, issues C and stops there with an exception: the third pause of
line 145 is not reached. -/
theorem default_skips_last_pause_without_response :
    requestsAndPauses (default silentDetailBackend sampleFixture).trace =
      [.request (profileRequest sampleFixture), .sleep 1,
       .request (listGroupsRequest sampleFixture), .sleep 1,
       .request (viewGroupRequest sampleFixture)] ∧
    (default silentDetailBackend sampleFixture).result =
      .error "the body is null so we can't transform it to JSON" := by
  rw [default_failed silentDetailBackend sampleFixture 0 (by decide)]
  exact ⟨by decide, rfl⟩

/-- C5 as stated fails: with A and B passing and C answering 200 with another id,
one of the three samples of `error_rate` is a failure, while one of the four
assertions evaluated failed. -/
theorem error_rate_is_not_assertion_ratio :
    errorRate (runIterations sampleFixture [wrongIdBackend]) = 1 / 3 ∧
    failedAssertionRatio (runIterations sampleFixture [wrongIdBackend]) = 1 / 4 ∧
    errorRate (runIterations sampleFixture [wrongIdBackend]) ≠
      failedAssertionRatio (runIterations sampleFixture [wrongIdBackend]) := by
  have h1 : rateSamples mErrorRate (runIterations sampleFixture [wrongIdBackend]) =
      [false, false, true] := by decide
  have h2 : checkSamples (runIterations sampleFixture [wrongIdBackend]) =
      [true, true, true, false] := by decide
  simp only [errorRate, rate, failedAssertionRatio, h1, h2]
  norm_num

/-- C5, amended: over any sequence of iterations whose request C got a response,
`error_rate` is the number of failed steps over the number of steps, three per
iteration; step C gives one sample, a failure when either of its two assertions
fails. -/
theorem error_rate_counts_failed_steps (data : Fixture) (servers : List (Request → Response))
    (h : ∀ server ∈ servers, (server (viewGroupRequest data)).isReceived = true) :
    errorRate (runIterations data servers) =
      (failedSteps data servers : ℚ) / ((3 * servers.length : ℕ) : ℚ) := by
  have hs := rateSamples_runIterations data servers h
  simp only [errorRate, rate, hs.1, hs.2]

/-- C5, amended, on two iterations: the first passes, in the second C returns
another id; one step out of six failed. -/
theorem error_rate_counts_failed_steps_witness :
    (∀ server ∈ [healthyBackend, wrongIdBackend],
      (server (viewGroupRequest sampleFixture)).isReceived = true) ∧
    errorRate (runIterations sampleFixture [healthyBackend, wrongIdBackend]) = 1 / 6 := by
  have h : ∀ server ∈ [healthyBackend, wrongIdBackend],
      (server (viewGroupRequest sampleFixture)).isReceived = true := by
    intro server hs
    simp only [List.mem_cons, List.mem_singleton, List.not_mem_nil, or_false] at hs
    rcases hs with rfl | rfl <;> decide
  refine ⟨h, ?_⟩
  rw [error_rate_counts_failed_steps sampleFixture [healthyBackend, wrongIdBackend] h]
  have hf : failedSteps sampleFixture [healthyBackend, wrongIdBackend] = 1 := by decide
  rw [hf]
  norm_num

/-- C6: the claim says a request without response makes the assertions false, adds
a failure sample and lets the iteration go on. For steps A and B it does. For step
C, with the backend down, the second assertion raises: the iteration ends with
that exception, `error_rate` has the two samples of A and B only, and the latency
metric of C has none. -/
theorem default_raises_without_response :
    (default downBackend sampleFixture).raised = true ∧
    rateSamples mErrorRate (default downBackend sampleFixture).trace = [true, true] ∧
    trendSamples mTTFB_ViewGroup (default downBackend sampleFixture).trace = [] ∧
    (default downBackend sampleFixture).trace.count (.sleep 1) = 2 := by
  rw [default_failed downBackend sampleFixture 0 rfl]
  exact ⟨rfl, by decide, by decide, by decide⟩

/-- C7 as stated fails: the fixture comes from a successful `setup`, the three
responses are 200 and the id matches, yet the latency sample is the waiting time
of the response, and that one is 0. -/
theorem healthy_run_has_zero_latency_sample :
    (setup healthyBackend).result = .ok sampleFixture ∧
    (instantBackend (profileRequest sampleFixture)).status = 200 ∧
    (instantBackend (listGroupsRequest sampleFixture)).status = 200 ∧
    (instantBackend (viewGroupRequest sampleFixture)).status = 200 ∧
    (instantBackend (viewGroupRequest sampleFixture)).field "id" = sampleFixture.testGroupId ∧
    trendSamples mTTFB_Profile (runIterations sampleFixture [instantBackend]) = [0] ∧
    ¬ (∀ v ∈ trendSamples mTTFB_Profile (runIterations sampleFixture [instantBackend]),
        0 < v) := by
  have h : trendSamples mTTFB_Profile (runIterations sampleFixture [instantBackend]) = [0] := by
    decide
  refine ⟨rfl, by decide, by decide, by decide, by decide, h, ?_⟩
  rw [h]
  simp

/-- C7, amended: for a fixture produced by a successful `setup` and any number of
iterations in which the three responses are 200 and the id returned by request C
is the one of the fixture, every sample added to `error_rate` is a zero, the rate
is 0, and each latency metric receives, once per iteration, the waiting time of
its response; the samples are strictly positive when those waiting times are. -/
theorem healthy_run_records_no_error (backend : Request → Response) (data : Fixture)
    (servers : List (Request → Response))
    (_hSetup : (setup backend).result = .ok data)
    (hOk : ∀ server ∈ servers,
      (server (profileRequest data)).status = 200 ∧
      (server (listGroupsRequest data)).status = 200 ∧
      (server (viewGroupRequest data)).status = 200 ∧
      (server (viewGroupRequest data)).field "id" = data.testGroupId) :
    (∀ v ∈ rateSamples mErrorRate (runIterations data servers), v = false) ∧
    errorRate (runIterations data servers) = 0 ∧
    trendSamples mTTFB_Profile (runIterations data servers) =
      servers.map (fun server => (server (profileRequest data)).waiting) ∧
    trendSamples mTTFB_ListGroups (runIterations data servers) =
      servers.map (fun server => (server (listGroupsRequest data)).waiting) ∧
    trendSamples mTTFB_ViewGroup (runIterations data servers) =
      servers.map (fun server => (server (viewGroupRequest data)).waiting) ∧
    ((∀ server ∈ servers,
        0 < (server (profileRequest data)).waiting ∧
        0 < (server (listGroupsRequest data)).waiting ∧
        0 < (server (viewGroupRequest data)).waiting) →
      ∀ v, (v ∈ trendSamples mTTFB_Profile (runIterations data servers) ∨
            v ∈ trendSamples mTTFB_ListGroups (runIterations data servers) ∨
            v ∈ trendSamples mTTFB_ViewGroup (runIterations data servers)) → 0 < v) := by
  have hRecv : ∀ server ∈ servers, (server (viewGroupRequest data)).isReceived = true := by
    intro server hs
    obtain ⟨fields, w, hr⟩ := received_of_status (hOk server hs).2.2.1 (by decide)
    rw [hr]; rfl
  have hFailed : failedSteps data servers = 0 := by
    clear hRecv
    induction servers with
    | nil => rfl
    | cons server rest ih =>
      have hHead := hOk server (List.mem_cons_self _ _)
      have hRest := ih (fun sv hsv => hOk sv (List.mem_cons_of_mem _ hsv))
      simp [failedSteps, stepFailures, hHead.1, hHead.2.1, hHead.2.2.1, hHead.2.2.2, hRest]
  have hRate := rateSamples_runIterations data servers hRecv
  have hTrend := trendSamples_runIterations data servers hRecv
  have hCount : (rateSamples mErrorRate (runIterations data servers)).count true = 0 := by
    rw [hRate.2, hFailed]
  refine ⟨?_, ?_, hTrend.1, hTrend.2.1, hTrend.2.2, ?_⟩
  · intro v hv
    cases v with
    | false => rfl
    | true => exact absurd hv (List.count_eq_zero.mp hCount)
  · simp [errorRate, rate, hCount]
  · intro hPos v hv
    rw [hTrend.1, hTrend.2.1, hTrend.2.2] at hv
    simp only [List.mem_map] at hv
    rcases hv with ⟨sv, hsv, rfl⟩ | ⟨sv, hsv, rfl⟩ | ⟨sv, hsv, rfl⟩
    · exact (hPos sv hsv).1
    · exact (hPos sv hsv).2.1
    · exact (hPos sv hsv).2.2

/-- C7, amended, on the scenario of the spec: token `abc123`, group id `g-1`, two
iterations. -/
theorem healthy_run_records_no_error_witness :
    (setup healthyBackend).result = .ok sampleFixture ∧
    (∀ server ∈ [healthyBackend, healthyBackend],
      (server (profileRequest sampleFixture)).status = 200 ∧
      (server (listGroupsRequest sampleFixture)).status = 200 ∧
      (server (viewGroupRequest sampleFixture)).status = 200 ∧
      (server (viewGroupRequest sampleFixture)).field "id" = sampleFixture.testGroupId) ∧
    errorRate (runIterations sampleFixture [healthyBackend, healthyBackend]) = 0 ∧
    trendSamples mTTFB_ViewGroup (runIterations sampleFixture [healthyBackend, healthyBackend])
      = [9, 9] := by
  have hOk : ∀ server ∈ [healthyBackend, healthyBackend],
      (server (profileRequest sampleFixture)).status = 200 ∧
      (server (listGroupsRequest sampleFixture)).status = 200 ∧
      (server (viewGroupRequest sampleFixture)).status = 200 ∧
      (server (viewGroupRequest sampleFixture)).field "id" = sampleFixture.testGroupId := by
    intro server hs
    simp only [List.mem_cons, List.mem_singleton, List.not_mem_nil, or_false, or_self] at hs
    subst hs
    decide
  have hSetup : (setup healthyBackend).result = .ok sampleFixture := rfl
  have hThm := healthy_run_records_no_error healthyBackend sampleFixture
    [healthyBackend, healthyBackend] hSetup hOk
  exact ⟨hSetup, hOk, hThm.2.1, hThm.2.2.2.2.1⟩

/-- C8: in an iteration whose three requests got a response, each of the three
latency metrics receives exactly one sample, the waiting time of its response,
whatever the status and the body; no other action of the iteration, the pauses
included, adds to a latency metric. -/
theorem latency_recorded_for_received_responses (server : Request → Response) (data : Fixture)
    (_hA : (server (profileRequest data)).isReceived = true)
    (_hB : (server (listGroupsRequest data)).isReceived = true)
    (hC : (server (viewGroupRequest data)).isReceived = true) :
    trendSamples mTTFB_Profile (default server data).trace =
      [(server (profileRequest data)).waiting] ∧
    trendSamples mTTFB_ListGroups (default server data).trace =
      [(server (listGroupsRequest data)).waiting] ∧
    trendSamples mTTFB_ViewGroup (default server data).trace =
      [(server (viewGroupRequest data)).waiting] ∧
    trendActions (default server data).trace =
      [.trendAdd mTTFB_Profile (server (profileRequest data)).waiting,
       .trendAdd mTTFB_ListGroups (server (listGroupsRequest data)).waiting,
       .trendAdd mTTFB_ViewGroup (server (viewGroupRequest data)).waiting] :=
  trendSamples_default_received server data hC

/-- C8 on the scenario of the spec: request C answers 200 with the id
`different-id`; its check fails and its latency sample is recorded. -/
theorem latency_recorded_for_received_responses_witness :
    wrongIdBackend (viewGroupRequest sampleFixture) =
      .received 200 [("id", "different-id")] 7 ∧
    rateSamples mErrorRate (default wrongIdBackend sampleFixture).trace = [false, false, true] ∧
    trendSamples mTTFB_ViewGroup (default wrongIdBackend sampleFixture).trace = [7] :=
  ⟨rfl, by decide,
   (latency_recorded_for_received_responses wrongIdBackend sampleFixture rfl rfl rfl).2.2.1⟩

/-- C9: the claim says each iteration adds three samples to `error_rate`, the one
of step C being a failure when the status is not 200. When request C gets no
response while A and B pass, the iteration adds two samples, both zeros: the
failure of step C is not counted and the rate is 0. -/
theorem default_adds_two_error_samples_without_response :
    stepFailures sampleFixture silentDetailBackend = [false, false, true] ∧
    rateSamples mErrorRate (default silentDetailBackend sampleFixture).trace = [false, false] ∧
    errorRate (default silentDetailBackend sampleFixture).trace = 0 := by
  have h : rateSamples mErrorRate (default silentDetailBackend sampleFixture).trace =
      [false, false] := by decide
  refine ⟨by decide, h, ?_⟩
  simp [errorRate, rate, h]

/-- C10: whatever the fixture and the responses, the requests of an iteration are
the three GETs of /profile, /groups and /groups/ followed by the id of the
fixture, each with the header `Authorization: Bearer` followed by the token of
the fixture, and nothing else; the iteration reads the fixture and hands nothing
back, so every iteration of a run issues its requests from the same fixture. -/
theorem default_only_issues_authenticated_gets (server : Request → Response) (data : Fixture) :
    requestsOf (default server data).trace =
      [profileRequest data, listGroupsRequest data, viewGroupRequest data] ∧
    (∀ r ∈ requestsOf (default server data).trace,
      r.method = .GET ∧ r.payload = [] ∧
      r.headers = [("Authorization", "Bearer " ++ render data.authToken)]) ∧
    (profileRequest data).url = BASE_URL ++ "/profile" ∧
    (listGroupsRequest data).url = BASE_URL ++ "/groups" ∧
    (viewGroupRequest data).url = BASE_URL ++ "/groups/" ++ render data.testGroupId ∧
    (∀ servers : List (Request → Response), ∀ r ∈ requestsOf (runIterations data servers),
      r.method = .GET ∧
      r.headers = [("Authorization", "Bearer " ++ render data.authToken)]) ∧
    (requestsOf (default server data).trace).map (fun r => r.method) = [.GET, .GET, .GET] ∧
    (∀ token : String, data.authToken = some token →
      (requestsOf (default server data).trace).map (fun r => r.headers) =
        [[("Authorization", "Bearer " ++ token)], [("Authorization", "Bearer " ++ token)],
         [("Authorization", "Bearer " ++ token)]]) ∧
    (data.authToken = none →
      (requestsOf (default server data).trace).map (fun r => r.headers) =
        [[("Authorization", "Bearer undefined")], [("Authorization", "Bearer undefined")],
         [("Authorization", "Bearer undefined")]]) ∧
    (∀ id : String, data.testGroupId = some id →
      (requestsOf (default server data).trace).map (fun r => r.url) =
        ["http://localhost:8080/profile", "http://localhost:8080/groups",
         "http://localhost:8080/groups/" ++ id]) ∧
    (data.testGroupId = none →
      (requestsOf (default server data).trace).map (fun r => r.url) =
        ["http://localhost:8080/profile", "http://localhost:8080/groups",
         "http://localhost:8080/groups/undefined"]) := by
  have hUrl1 : BASE_URL ++ "/profile" = "http://localhost:8080/profile" := by decide
  have hUrl2 : BASE_URL ++ "/groups" = "http://localhost:8080/groups" := by decide
  have hUrl3 : BASE_URL ++ "/groups/" = "http://localhost:8080/groups/" := by decide
  have hUndef : "http://localhost:8080/groups/" ++ render none =
      "http://localhost:8080/groups/undefined" := by decide
  have hBearer : "Bearer " ++ render none = "Bearer undefined" := by decide
  refine ⟨requestsOf_default server data, ?_, rfl, rfl, rfl, ?_, ?_, ?_, ?_, ?_, ?_⟩
  · intro r hr
    rw [requestsOf_default] at hr
    simp only [List.mem_cons, List.mem_singleton, List.not_mem_nil, or_false] at hr
    rcases hr with rfl | rfl | rfl <;> exact ⟨rfl, rfl, rfl⟩
  · intro servers r hr
    rcases requestsOf_runIterations data servers r hr with rfl | rfl | rfl <;> exact ⟨rfl, rfl⟩
  · rw [requestsOf_default]; rfl
  · intro token hTok
    rw [requestsOf_default]
    simp [profileRequest, listGroupsRequest, viewGroupRequest, authParams, hTok, render]
  · intro hTok
    rw [requestsOf_default]
    simp [profileRequest, listGroupsRequest, viewGroupRequest, authParams, hTok, hBearer]
  · intro id hId
    rw [requestsOf_default]
    simp [profileRequest, listGroupsRequest, viewGroupRequest, hId, render, hUrl1, hUrl2,
      hUrl3]
  · intro hId
    rw [requestsOf_default]
    simp [profileRequest, listGroupsRequest, viewGroupRequest, hId, hUrl1, hUrl2, hUrl3,
      hUndef]

end K6Script
